import Mathlib

set_option autoImplicit false

/-!
Shallow embedding of `src/memory.hpp` (utils smart custom pointer/handles).

The header defines three wrapper families:
* `utils::unique_handle<HandleDeleter>` — a scalar handle with a static null
  sentinel `HandleDeleter::null` and `HandleDeleter::release(value)`;
* `utils::generic_unique_ptr<T, GenericDeleter>` and
  `utils::generic_shared_ptr<T, GenericDeleter>`, both deriving from the common
  base `xx_impl::generic_smart_ptr<T, GenericDeleter, _>` which stores the raw
  pointer `_p` and implements get/release/reset/destructor/swap/move.

The embedding models the scalar handle type as `Int` (the deleter's sentinel is
passed explicitly as `nullv`), and raw pointers as `Option Nat` (`none` is
`nullptr`, `some a` a non-null address).  Every operation that can invoke the
deleter policy returns, besides the resulting state, the list of policy calls
it performed, in order.  A recorded `release` call also carries the value the
wrapper's slot held at the moment the call was made, so that re-entrancy
guarantees ("the slot is cleared before release fires") are expressible.
-/

namespace UtilsMemory

/-- One `HandleDeleter::release(arg)` invocation performed by a
`unique_handle` operation; `slotAtCall` is the value stored in the wrapper's
`_obj` slot at the moment the call is made. -/
structure HandleCall where
  arg : Int
  slotAtCall : Int
deriving DecidableEq

/-- State of `utils::unique_handle` (memory.hpp lines 83-146): the single
stored scalar `_obj`.  The deleter's constant `HandleDeleter::null` is passed
to each operation as `nullv`. -/
structure unique_handle where
  obj : Int
deriving DecidableEq

/-- Result of a `unique_handle` operation: the new state and the policy
calls performed. -/
structure HOp where
  state : unique_handle
  calls : List HandleCall
deriving DecidableEq

/-- Result of a `unique_handle` move operation: destination state, moved-from
source state, and the policy calls performed. -/
structure HMove where
  dst : unique_handle
  src : unique_handle
  calls : List HandleCall
deriving DecidableEq

namespace unique_handle

/-- `unique_handle::get` (line 93). -/
def get (s : unique_handle) : Int := s.obj

/-- `unique_handle::release` (lines 95-100): returns the stored value and sets
the slot to `HandleDeleter::null`; no policy call is made. -/
def release (nullv : Int) (s : unique_handle) : Int × unique_handle :=
  (s.obj, ⟨nullv⟩)

/-- `unique_handle::reset` (lines 102-108): save the old value, store the new
value, then call `HandleDeleter::release` on the old value if it is not the
null sentinel.  The slot holds `new_obj` when the release call fires. -/
def reset (nullv : Int) (s : unique_handle) (new_obj : Int) : HOp :=
  let old_obj := s.obj
  let st : unique_handle := ⟨new_obj⟩
  if old_obj ≠ nullv then ⟨st, [⟨old_obj, st.obj⟩]⟩ else ⟨st, []⟩

/-- `unique_handle::~unique_handle` (lines 110-114): call release on `_obj` if
non-null.  The slot is not cleared first: it still holds `_obj` at the call. -/
def dtorCalls (nullv : Int) (s : unique_handle) : List HandleCall :=
  if s.obj ≠ nullv then [⟨s.obj, s.obj⟩] else []

/-- `unique_handle(unique_handle&&)` (lines 119-120): copy the source's value,
then set the source to null; no policy call. -/
def moveCtor (nullv : Int) (other : unique_handle) : HMove :=
  ⟨⟨other.obj⟩, ⟨nullv⟩, []⟩

/-- `unique_handle::operator=(unique_handle&&)` (lines 125-129):
`this->reset(other.release())`. -/
def moveAssign (nullv : Int) (dst other : unique_handle) : HMove :=
  let r := release nullv other
  let t := reset nullv dst r.1
  ⟨t.state, r.2, t.calls⟩

/-- `unique_handle::operator=(std::nullptr_t)` (lines 131-135):
`this->reset()`, i.e. reset with the default argument `HandleDeleter::null`. -/
def assignNull (nullv : Int) (s : unique_handle) : HOp :=
  reset nullv s nullv

/-- `unique_handle::swap` (lines 137-140): exchange the two slots; no policy
call. -/
def swap (a b : unique_handle) : (unique_handle × unique_handle) × List HandleCall :=
  ((⟨b.obj⟩, ⟨a.obj⟩), [])

/-- `unique_handle::operator bool` (line 142): `_obj != HandleDeleter::null`. -/
def toBool (nullv : Int) (s : unique_handle) : Bool := decide (s.obj ≠ nullv)

/-- `operator==` for `unique_handle` (lines 148-153): `a.get() == b.get()`. -/
def eqOp (a b : unique_handle) : Bool := get a == get b

/-- `std::hash<utils::unique_handle<HandleDeleter>>::operator()` (lines
621-629): hash of `x.get()` under the scalar type's hash function `h`. -/
def hashW (h : Int → Nat) (s : unique_handle) : Nat := h (get s)

end unique_handle

/-- One policy invocation performed by a pointer-wrapper operation: either
`GenericDeleter::release(arg)` — with `slotAtCall` the value the wrapper's
`_p` slot held at the moment of the call — or `GenericDeleter::add_ref(arg)`. -/
inductive PolicyCall where
  | rel (arg : Option Nat) (slotAtCall : Option Nat)
  | addRef (arg : Option Nat)
deriving DecidableEq

/-- The pointer argument a policy call was given. -/
def PolicyCall.arg : PolicyCall → Option Nat
  | .rel a _ => a
  | .addRef a => a

/-- State of the common base `xx_impl::generic_smart_ptr` (memory.hpp lines
191-262): the single stored raw pointer `_p`.  `generic_unique_ptr` and
`generic_shared_ptr` (lines 360-386 and 433-505) derive from it and add no
state, so both wrapper kinds share this state type; the shared-only copy
operations live in the `generic_shared_ptr` namespace below. -/
structure generic_smart_ptr where
  p : Option Nat
deriving DecidableEq

/-- Result of a pointer-wrapper operation: the new state and the policy calls
performed. -/
structure POp where
  state : generic_smart_ptr
  calls : List PolicyCall
deriving DecidableEq

/-- Result of a pointer-wrapper move operation: destination state, moved-from
source state, and the policy calls performed. -/
structure PMove where
  dst : generic_smart_ptr
  src : generic_smart_ptr
  calls : List PolicyCall
deriving DecidableEq

/-- Result of shared-pointer copy assignment: the destination state, the
policy calls performed, and whether an exception escaped from the policy's
add_ref. -/
structure PAssign where
  state : generic_smart_ptr
  calls : List PolicyCall
  threw : Bool
deriving DecidableEq

namespace generic_smart_ptr

/-- `generic_smart_ptr::get` (line 205). -/
def get (s : generic_smart_ptr) : Option Nat := s.p

/-- `generic_smart_ptr::operator bool` (line 206): `_p != nullptr`. -/
def toBool (s : generic_smart_ptr) : Bool := s.p.isSome

/-- `generic_smart_ptr::release` (lines 208-213): return `_p` and null the
slot; no policy call. -/
def release (s : generic_smart_ptr) : Option Nat × generic_smart_ptr :=
  (s.p, ⟨none⟩)

/-- `generic_smart_ptr::reset` (lines 215-221): save the old pointer, store
the new one, then call `GenericDeleter::release` on the old pointer if
non-null.  The slot holds the new pointer when the release call fires. -/
def reset (s : generic_smart_ptr) (ptr : Option Nat) : POp :=
  let old_ptr := s.p
  let st : generic_smart_ptr := ⟨ptr⟩
  match old_ptr with
  | none => ⟨st, []⟩
  | some a => ⟨st, [.rel (some a) st.p]⟩

/-- `generic_smart_ptr::~generic_smart_ptr` (lines 223-227): call release on
`_p` if non-null.  The slot is not cleared first: it still holds `_p` at the
call. -/
def dtorCalls (s : generic_smart_ptr) : List PolicyCall :=
  match s.p with
  | none => []
  | some a => [.rel (some a) (some a)]

/-- `generic_smart_ptr::swap` (lines 229-232): exchange the two `_p` slots; no
policy call. -/
def swap (a b : generic_smart_ptr) :
    (generic_smart_ptr × generic_smart_ptr) × List PolicyCall :=
  ((⟨b.p⟩, ⟨a.p⟩), [])

/-- `generic_smart_ptr::operator=(Template<U, GenericDeleter>&&)` (lines
234-239): `this->reset(other.release())`. -/
def moveAssign (dst other : generic_smart_ptr) : PMove :=
  let r := release other
  let t := reset dst r.1
  ⟨t.state, r.2, t.calls⟩

/-- `generic_smart_ptr::operator=(std::nullptr_t)` (lines 241-245):
`this->reset()`, i.e. reset with the default argument `nullptr`. -/
def assignNull (s : generic_smart_ptr) : POp :=
  reset s none

/-- The protected move constructor `generic_smart_ptr(U&&)` (lines 253-255),
through which the derived wrappers' move constructors (lines 370-377, 443-455)
all pass: copy the source's `_p`, then null the source; no policy call. -/
def moveCtor (other : generic_smart_ptr) : PMove :=
  ⟨⟨other.p⟩, ⟨none⟩, []⟩

/-- `xx_impl::operator==(const generic_smart_ptr&, std::nullptr_t)` (lines
264-268), translated as written: `return !!a;`. -/
def eqNullptr (a : generic_smart_ptr) : Bool := toBool a

/-- `xx_impl::operator==(std::nullptr_t, const generic_smart_ptr&)` (lines
269-273), translated as written: `return !!a;`. -/
def nullptrEq (a : generic_smart_ptr) : Bool := toBool a

/-- `xx_impl::operator!=(const generic_smart_ptr&, std::nullptr_t)` (lines
274-278), translated as written: `return !a;`. -/
def neNullptr (a : generic_smart_ptr) : Bool := !(toBool a)

/-- `xx_impl::operator!=(std::nullptr_t, const generic_smart_ptr&)` (lines
279-283), translated as written: `return !a;`. -/
def nullptrNe (a : generic_smart_ptr) : Bool := !(toBool a)

/-- `operator==` for `generic_unique_ptr` (lines 392-397) and for
`generic_shared_ptr` (lines 526-531): `a.get() == b.get()`. -/
def eqOp (a b : generic_smart_ptr) : Bool := get a == get b

/-- `std::hash` for `generic_unique_ptr` / `generic_shared_ptr` (lines
631-649): the body hashes `x.get()` with the raw pointer hash, modelled as an
arbitrary function `h`. -/
def hashW (h : Option Nat → Nat) (s : generic_smart_ptr) : Nat := h (get s)

end generic_smart_ptr

namespace generic_shared_ptr

/-- `generic_shared_ptr`'s copy constructors (memory.hpp lines 457-470) with
the policy's `add_ref` allowed to fail, as claimed by the header's
exception-safety argument: the base subobject is first constructed holding
`other.get()`; then, if that pointer is non-null, `GenericDeleter::add_ref` is
invoked on it.  `addRefThrows a` says whether `add_ref` throws on address `a`.
If it throws, the already-constructed base subobject is destroyed during stack
unwinding (running `generic_smart_ptr::~generic_smart_ptr`), and no object is
produced. -/
def copyCtorF (addRefThrows : Nat → Bool) (other : generic_smart_ptr) :
    Option generic_smart_ptr × List PolicyCall :=
  let base : generic_smart_ptr := ⟨other.p⟩
  match base.p with
  | none => (some base, [])
  | some a =>
    if addRefThrows a then (none, generic_smart_ptr.dtorCalls base)
    else (some base, [PolicyCall.addRef (some a)])

/-- `generic_shared_ptr`'s copy constructors (lines 457-470) under a
non-throwing `add_ref` (the policy contract): construct the base holding
`other.get()`, then invoke `add_ref` on it if non-null. -/
def copyCtor (other : generic_smart_ptr) : POp :=
  let base : generic_smart_ptr := ⟨other.p⟩
  match base.p with
  | none => ⟨base, []⟩
  | some a => ⟨base, [PolicyCall.addRef (some a)]⟩

/-- `generic_shared_ptr::operator=(const generic_shared_ptr&)` (lines
483-494): `generic_shared_ptr(other).swap(*this)` — construct a temporary
copy, swap it with `*this`, then destroy the temporary.  If `add_ref` throws
inside the copy, the exception escapes before the swap and `*this` is left
untouched. -/
def copyAssignF (addRefThrows : Nat → Bool) (dst other : generic_smart_ptr) :
    PAssign :=
  match copyCtorF addRefThrows other with
  | (none, cs) => ⟨dst, cs, true⟩
  | (some tmp, cs) =>
    let sw := generic_smart_ptr.swap tmp dst
    ⟨sw.1.2, cs ++ sw.2 ++ generic_smart_ptr.dtorCalls sw.1.1, false⟩

/-- Copy assignment (lines 483-494) under a non-throwing `add_ref`. -/
def copyAssign (dst other : generic_smart_ptr) : PAssign :=
  copyAssignF (fun _ => false) dst other

end generic_shared_ptr

/-- Whether a policy call is a `release` call. -/
def isRel : PolicyCall → Bool
  | .rel _ _ => true
  | .addRef _ => false

/-- Number of `release` calls in a call list. -/
def numRel (cs : List PolicyCall) : Nat := (cs.filter isRel).length

/-- Number of `add_ref` calls in a call list. -/
def numAddRef (cs : List PolicyCall) : Nat := (cs.filter (fun c => !isRel c)).length

/-- Net change a call list applies to the external reference count: each
`add_ref` adds one, each `release` removes one. -/
def countDelta (cs : List PolicyCall) : Int := (numAddRef cs : Int) - (numRel cs : Int)

/-- The arguments of the `release` calls in a call list, in order. -/
def relArgs (cs : List PolicyCall) : List (Option Nat) :=
  (cs.filter isRel).map PolicyCall.arg

/-- The arguments of the `release` calls of a `unique_handle` call list (every
`HandleCall` is a release call). -/
def relArgsH (cs : List HandleCall) : List Int := cs.map HandleCall.arg

/-- Whether every `release` call in the list found the wrapper's slot already
nulled when it fired. -/
def allRelSlotsCleared (cs : List PolicyCall) : Bool :=
  cs.all fun c => match c with
    | .rel _ s => s.isNone
    | .addRef _ => true

/-- Whether every `release` call in the list was given a non-null pointer. -/
def relArgsNonNull (cs : List PolicyCall) : Bool :=
  cs.all fun c => match c with
    | .rel a _ => a.isSome
    | .addRef _ => true

/-- Whether every release call in a `unique_handle` call list was given a
value other than the null sentinel. -/
def relArgsNonNullH (nullv : Int) (cs : List HandleCall) : Bool :=
  cs.all fun c => decide (c.arg ≠ nullv)

/-- C1: evaluating the null-literal comparison operators of the pointer
wrappers at a wrapper holding the non-null address 1 shows they are inverted:
`(w == nullptr)` evaluates to `true` while `bool(w)` is also `true`, and
`(w != nullptr)` evaluates to `false`; on a null wrapper `(w == nullptr)`
evaluates to `false`.  This contradicts the claim that `(w == nullptr)` holds
iff `bool(w)` is false. -/
theorem C1_nullptr_compare_inverted :
    generic_smart_ptr.eqNullptr ⟨some 1⟩ = true
    ∧ generic_smart_ptr.nullptrEq ⟨some 1⟩ = true
    ∧ generic_smart_ptr.toBool ⟨some 1⟩ = true
    ∧ generic_smart_ptr.neNullptr ⟨some 1⟩ = false
    ∧ generic_smart_ptr.nullptrNe ⟨some 1⟩ = false
    ∧ generic_smart_ptr.eqNullptr ⟨none⟩ = false
    ∧ generic_smart_ptr.toBool ⟨none⟩ = false := by decide

/-- C2 (counterexample): destroying an exclusive pointer wrapper holding the
address 5 performs one release call whose recorded slot value is still
`some 5`, not null — the destructor does not clear the slot before invoking
release, refuting the claim that both destruction and reset null the slot
first. -/
theorem C2_dtor_slot_not_cleared :
    generic_smart_ptr.dtorCalls ⟨some 5⟩ = [PolicyCall.rel (some 5) (some 5)]
    ∧ allRelSlotsCleared (generic_smart_ptr.dtorCalls ⟨some 5⟩) = false := by decide

/-- C2 (amended): for a wrapper holding a non-null pointer, destruction and
reset each invoke release exactly once on that pointer; reset stores the new
(null) value before release fires, so the release call observes an
already-nulled slot, while the destructor's release call observes the slot
still holding the old pointer. -/
theorem C2_release_once_reset_clears_first :
    (∀ a : Nat,
        generic_smart_ptr.dtorCalls ⟨some a⟩ = [PolicyCall.rel (some a) (some a)])
    ∧ (∀ a : Nat,
        generic_smart_ptr.reset ⟨some a⟩ none = ⟨⟨none⟩, [PolicyCall.rel (some a) none]⟩)
    ∧ (∀ a : Nat,
        allRelSlotsCleared (generic_smart_ptr.reset ⟨some a⟩ none).calls = true) :=
  ⟨fun _ => rfl, fun _ => rfl, fun _ => rfl⟩

/-- C3 (counterexample): move-assigning a wrapper holding address 2 into a
wrapper holding address 1 invokes the policy's release (on the destination's
old pointer 1), refuting the claim that move assignment never invokes
release. -/
theorem C3_move_assign_releases_dst :
    (generic_smart_ptr.moveAssign ⟨some 1⟩ ⟨some 2⟩).calls
      = [PolicyCall.rel (some 1) (some 2)]
    ∧ (generic_smart_ptr.moveAssign ⟨some 1⟩ ⟨some 2⟩).calls ≠ [] := by decide

/-- C3 (amended): for the scalar handle and both pointer wrappers, move
construction performs no policy calls and leaves the moved-from wrapper null;
move assignment leaves the moved-from wrapper null, transfers the source's raw
value to the destination (so release() there returns it), and its only policy
calls are one release of the destination's previously held value when that
value was non-null — never a release or add_ref of the transferred value. -/
theorem C3_move_semantics :
    (∀ (nullv : Int) (s : unique_handle),
        unique_handle.moveCtor nullv s = ⟨⟨s.obj⟩, ⟨nullv⟩, []⟩)
    ∧ (∀ (nullv : Int) (d s : unique_handle),
        (unique_handle.moveAssign nullv d s).src = ⟨nullv⟩
        ∧ ((unique_handle.moveAssign nullv d s).dst).obj = s.obj
        ∧ (unique_handle.release nullv (unique_handle.moveAssign nullv d s).dst).1 = s.obj
        ∧ relArgsH (unique_handle.moveAssign nullv d s).calls
            = (if d.obj = nullv then [] else [d.obj]))
    ∧ (∀ s : generic_smart_ptr,
        generic_smart_ptr.moveCtor s = ⟨⟨s.p⟩, ⟨none⟩, []⟩)
    ∧ (∀ d s : generic_smart_ptr,
        (generic_smart_ptr.moveAssign d s).src = ⟨none⟩
        ∧ (generic_smart_ptr.release (generic_smart_ptr.moveAssign d s).dst).1 = s.p
        ∧ relArgs (generic_smart_ptr.moveAssign d s).calls
            = (match d.p with | none => [] | some a => [some a])) := by
  refine ⟨fun nullv s => rfl, fun nullv d s => ?_, fun s => rfl, fun d s => ?_⟩
  · simp only [unique_handle.moveAssign, unique_handle.reset, unique_handle.release]
    by_cases h : d.obj = nullv <;>
      simp [h, relArgsH, HandleCall.arg]
  · cases hd : d.p <;>
      simp [generic_smart_ptr.moveAssign, generic_smart_ptr.reset,
        generic_smart_ptr.release, hd, relArgs, isRel, PolicyCall.arg]

/-- C4: copying a shared wrapper holding a non-null address performs exactly
one add_ref call on that address and no release; the copy and the original
return the same address from get(); destroying either performs exactly one
release call.  Copying a null shared wrapper performs no policy calls. -/
theorem C4_shared_copy_addref :
    (∀ a : Nat,
        generic_shared_ptr.copyCtor ⟨some a⟩ = ⟨⟨some a⟩, [PolicyCall.addRef (some a)]⟩
        ∧ numAddRef (generic_shared_ptr.copyCtor ⟨some a⟩).calls = 1
        ∧ numRel (generic_shared_ptr.copyCtor ⟨some a⟩).calls = 0
        ∧ generic_smart_ptr.get (generic_shared_ptr.copyCtor ⟨some a⟩).state
            = generic_smart_ptr.get ⟨some a⟩
        ∧ numRel (generic_smart_ptr.dtorCalls (generic_shared_ptr.copyCtor ⟨some a⟩).state) = 1
        ∧ numRel (generic_smart_ptr.dtorCalls ⟨some a⟩) = 1)
    ∧ generic_shared_ptr.copyCtor ⟨none⟩ = ⟨⟨none⟩, []⟩ :=
  ⟨fun _ => ⟨rfl, rfl, rfl, rfl, rfl, rfl⟩, rfl⟩

/-- C5: shared-pointer copy assignment goes through a temporary copy and a
swap, so if the policy's add_ref throws during the copy, the destination is
left exactly as it was; on success the destination holds the source's
pointer, and the only release performed is of the destination's previously
held pointer (exactly once, by the temporary's destructor) when it was
non-null. -/
theorem C5_copy_assign_strong_guarantee (addRefThrows : Nat → Bool)
    (d s : generic_smart_ptr) :
    ((generic_shared_ptr.copyAssignF addRefThrows d s).threw = true →
        (generic_shared_ptr.copyAssignF addRefThrows d s).state = d)
    ∧ ((generic_shared_ptr.copyAssignF addRefThrows d s).threw = false →
        (generic_shared_ptr.copyAssignF addRefThrows d s).state = ⟨s.p⟩
        ∧ relArgs (generic_shared_ptr.copyAssignF addRefThrows d s).calls
            = (match d.p with | none => [] | some a => [some a])) := by
  cases hs : s.p with
  | none =>
    cases hd : d.p <;>
      simp [generic_shared_ptr.copyAssignF, generic_shared_ptr.copyCtorF,
        generic_smart_ptr.swap, generic_smart_ptr.dtorCalls, hs, hd,
        relArgs, isRel, PolicyCall.arg]
  | some a =>
    by_cases hf : addRefThrows a <;>
      cases hd : d.p <;>
        simp [generic_shared_ptr.copyAssignF, generic_shared_ptr.copyCtorF,
          generic_smart_ptr.swap, generic_smart_ptr.dtorCalls, hs, hd, hf,
          relArgs, isRel, PolicyCall.arg]

/-- C5 (witness): at concrete inputs, a throwing add_ref leaves the
destination holding its old address 1, and a non-throwing copy assignment
moves address 2 into the destination. -/
theorem C5_copy_assign_witness :
    (generic_shared_ptr.copyAssignF (fun _ => true) ⟨some 1⟩ ⟨some 2⟩).state = ⟨some 1⟩
    ∧ (generic_shared_ptr.copyAssignF (fun _ => false) ⟨some 1⟩ ⟨some 2⟩).state = ⟨some 2⟩ :=
  ⟨(C5_copy_assign_strong_guarantee (fun _ => true) ⟨some 1⟩ ⟨some 2⟩).1 (by decide),
   ((C5_copy_assign_strong_guarantee (fun _ => false) ⟨some 1⟩ ⟨some 2⟩).2 (by decide)).1⟩

/-- C6: self-assignment of a shared wrapper leaves its stored pointer
unchanged and leaves the external reference count unchanged; on a non-null
wrapper the temporary performs exactly one add_ref and exactly one release,
which cancel. -/
theorem C6_self_assign_identity :
    (∀ a : generic_smart_ptr,
        (generic_shared_ptr.copyAssign a a).state = a
        ∧ countDelta (generic_shared_ptr.copyAssign a a).calls = 0)
    ∧ (∀ x : Nat,
        numAddRef (generic_shared_ptr.copyAssign ⟨some x⟩ ⟨some x⟩).calls = 1
        ∧ numRel (generic_shared_ptr.copyAssign ⟨some x⟩ ⟨some x⟩).calls = 1) := by
  refine ⟨fun a => ?_, fun x => ⟨rfl, rfl⟩⟩
  obtain ⟨p⟩ := a
  cases p <;>
    simp [generic_shared_ptr.copyAssign, generic_shared_ptr.copyAssignF,
      generic_shared_ptr.copyCtorF, generic_smart_ptr.swap,
      generic_smart_ptr.dtorCalls, countDelta, numAddRef, numRel, isRel]

/-- C7: for the scalar handle and the pointer wrappers, `reset()` followed by
destruction performs at most one release call in total (the destructor finds
the slot already null), and destruction performs release calls with exactly
the same arguments as `reset()` with the default null value would. -/
theorem C7_reset_then_dtor_once :
    (∀ (nullv : Int) (s : unique_handle),
        (unique_handle.reset nullv s nullv).calls.length
          + (unique_handle.dtorCalls nullv (unique_handle.reset nullv s nullv).state).length ≤ 1
        ∧ relArgsH (unique_handle.dtorCalls nullv s)
            = relArgsH (unique_handle.reset nullv s nullv).calls)
    ∧ (∀ s : generic_smart_ptr,
        (generic_smart_ptr.reset s none).calls.length
          + (generic_smart_ptr.dtorCalls (generic_smart_ptr.reset s none).state).length ≤ 1
        ∧ relArgs (generic_smart_ptr.dtorCalls s)
            = relArgs (generic_smart_ptr.reset s none).calls) := by
  constructor
  · intro nullv s
    by_cases h : s.obj = nullv <;>
      simp [unique_handle.reset, unique_handle.dtorCalls, h, relArgsH, HandleCall.arg]
  · intro s
    cases hs : s.p <;>
      simp [generic_smart_ptr.reset, generic_smart_ptr.dtorCalls, hs,
        relArgs, isRel, PolicyCall.arg]

/-- C8: across all modelled operations of all wrappers — reset, destruction,
move assignment, null assignment, shared copy construction (including under a
throwing add_ref) and shared copy assignment — every release call is given a
value that is not the null sentinel (scalar handles) or nullptr (pointer
wrappers); swap performs no policy calls at all. -/
theorem C8_release_never_on_null :
    (∀ (nullv : Int) (s : unique_handle) (v : Int),
        relArgsNonNullH nullv (unique_handle.reset nullv s v).calls = true)
    ∧ (∀ (nullv : Int) (s : unique_handle),
        relArgsNonNullH nullv (unique_handle.dtorCalls nullv s) = true)
    ∧ (∀ (nullv : Int) (d s : unique_handle),
        relArgsNonNullH nullv (unique_handle.moveAssign nullv d s).calls = true)
    ∧ (∀ (nullv : Int) (s : unique_handle),
        relArgsNonNullH nullv (unique_handle.assignNull nullv s).calls = true)
    ∧ (∀ (s : generic_smart_ptr) (ptr : Option Nat),
        relArgsNonNull (generic_smart_ptr.reset s ptr).calls = true)
    ∧ (∀ s : generic_smart_ptr,
        relArgsNonNull (generic_smart_ptr.dtorCalls s) = true)
    ∧ (∀ d s : generic_smart_ptr,
        relArgsNonNull (generic_smart_ptr.moveAssign d s).calls = true)
    ∧ (∀ s : generic_smart_ptr,
        relArgsNonNull (generic_smart_ptr.assignNull s).calls = true)
    ∧ (∀ s : generic_smart_ptr,
        relArgsNonNull (generic_shared_ptr.copyCtor s).calls = true)
    ∧ (∀ (f : Nat → Bool) (s : generic_smart_ptr),
        relArgsNonNull (generic_shared_ptr.copyCtorF f s).2 = true)
    ∧ (∀ (f : Nat → Bool) (d s : generic_smart_ptr),
        relArgsNonNull (generic_shared_ptr.copyAssignF f d s).calls = true)
    ∧ (∀ a b : generic_smart_ptr, (generic_smart_ptr.swap a b).2 = [])
    ∧ (∀ a b : unique_handle, (unique_handle.swap a b).2 = []) := by
  refine ⟨?_, ?_, ?_, ?_, ?_, ?_, ?_, ?_, ?_, ?_, ?_, fun a b => rfl, fun a b => rfl⟩
  · intro nullv s v
    by_cases h : s.obj = nullv <;> simp [unique_handle.reset, h, relArgsNonNullH]
  · intro nullv s
    by_cases h : s.obj = nullv <;> simp [unique_handle.dtorCalls, h, relArgsNonNullH]
  · intro nullv d s
    simp only [unique_handle.moveAssign, unique_handle.reset, unique_handle.release]
    by_cases h : d.obj = nullv <;> simp [h, relArgsNonNullH]
  · intro nullv s
    by_cases h : s.obj = nullv <;>
      simp [unique_handle.assignNull, unique_handle.reset, h, relArgsNonNullH]
  · intro s ptr
    cases hs : s.p <;> simp [generic_smart_ptr.reset, hs, relArgsNonNull]
  · intro s
    cases hs : s.p <;> simp [generic_smart_ptr.dtorCalls, hs, relArgsNonNull]
  · intro d s
    cases hd : d.p <;>
      simp [generic_smart_ptr.moveAssign, generic_smart_ptr.reset,
        generic_smart_ptr.release, hd, relArgsNonNull]
  · intro s
    cases hs : s.p <;>
      simp [generic_smart_ptr.assignNull, generic_smart_ptr.reset, hs, relArgsNonNull]
  · intro s
    cases hs : s.p <;> simp [generic_shared_ptr.copyCtor, hs, relArgsNonNull]
  · intro f s
    cases hs : s.p with
    | none => simp [generic_shared_ptr.copyCtorF, hs, relArgsNonNull]
    | some a =>
      by_cases hf : f a <;>
        simp [generic_shared_ptr.copyCtorF, generic_smart_ptr.dtorCalls, hs, hf,
          relArgsNonNull]
  · intro f d s
    cases hs : s.p with
    | none =>
      cases hd : d.p <;>
        simp [generic_shared_ptr.copyAssignF, generic_shared_ptr.copyCtorF,
          generic_smart_ptr.swap, generic_smart_ptr.dtorCalls, hs, hd, relArgsNonNull]
    | some a =>
      by_cases hf : f a <;>
        cases hd : d.p <;>
          simp [generic_shared_ptr.copyAssignF, generic_shared_ptr.copyCtorF,
            generic_smart_ptr.swap, generic_smart_ptr.dtorCalls, hs, hd, hf,
            relArgsNonNull]

/-- C9: for the scalar handle and the pointer wrappers, the equality operator
returns true exactly when the two wrappers' raw values (get()) are equal, and
the hash functions hash exactly the raw value, so wrappers that compare equal
hash identically under any hash function. -/
theorem C9_eq_and_hash :
    (∀ a b : unique_handle,
        unique_handle.eqOp a b = true ↔ unique_handle.get a = unique_handle.get b)
    ∧ (∀ a b : generic_smart_ptr,
        generic_smart_ptr.eqOp a b = true ↔ generic_smart_ptr.get a = generic_smart_ptr.get b)
    ∧ (∀ (h : Int → Nat) (a b : unique_handle),
        unique_handle.eqOp a b = true →
          unique_handle.hashW h a = unique_handle.hashW h b)
    ∧ (∀ (h : Option Nat → Nat) (a b : generic_smart_ptr),
        generic_smart_ptr.eqOp a b = true →
          generic_smart_ptr.hashW h a = generic_smart_ptr.hashW h b) := by
  refine ⟨fun a b => ?_, fun a b => ?_, fun h a b hab => ?_, fun h a b hab => ?_⟩
  · simp [unique_handle.eqOp]
  · simp [generic_smart_ptr.eqOp]
  · have : unique_handle.get a = unique_handle.get b := by
      simpa [unique_handle.eqOp] using hab
    simp [unique_handle.hashW, this]
  · have : generic_smart_ptr.get a = generic_smart_ptr.get b := by
      simpa [generic_smart_ptr.eqOp] using hab
    simp [generic_smart_ptr.hashW, this]

/-- C9 (witness): at concrete equal wrappers the hash values coincide. -/
theorem C9_eq_and_hash_witness :
    unique_handle.hashW Int.natAbs ⟨3⟩ = unique_handle.hashW Int.natAbs ⟨3⟩
    ∧ generic_smart_ptr.hashW (fun o => o.getD 0) ⟨some 2⟩
        = generic_smart_ptr.hashW (fun o => o.getD 0) ⟨some 2⟩ :=
  ⟨C9_eq_and_hash.2.2.1 Int.natAbs ⟨3⟩ ⟨3⟩ (by decide),
   C9_eq_and_hash.2.2.2 (fun o => o.getD 0) ⟨some 2⟩ ⟨some 2⟩ (by decide)⟩

/-- C10: assigning the null literal is exactly `reset()` with the default null
value: on a wrapper holding a non-null value it performs one release call on
that value and leaves the wrapper null; on an already-null wrapper it performs
no policy calls. -/
theorem C10_assign_nullptr_resets :
    (∀ (nullv : Int) (s : unique_handle),
        unique_handle.assignNull nullv s = unique_handle.reset nullv s nullv)
    ∧ (∀ (nullv v : Int), v ≠ nullv →
        unique_handle.assignNull nullv ⟨v⟩ = ⟨⟨nullv⟩, [⟨v, nullv⟩]⟩)
    ∧ (∀ nullv : Int, unique_handle.assignNull nullv ⟨nullv⟩ = ⟨⟨nullv⟩, []⟩)
    ∧ (∀ s : generic_smart_ptr,
        generic_smart_ptr.assignNull s = generic_smart_ptr.reset s none)
    ∧ (∀ a : Nat,
        generic_smart_ptr.assignNull ⟨some a⟩ = ⟨⟨none⟩, [PolicyCall.rel (some a) none]⟩)
    ∧ generic_smart_ptr.assignNull ⟨none⟩ = ⟨⟨none⟩, []⟩ := by
  refine ⟨fun nullv s => rfl, fun nullv v hv => ?_, fun nullv => ?_,
    fun s => rfl, fun a => rfl, rfl⟩
  · simp [unique_handle.assignNull, unique_handle.reset, hv]
  · simp [unique_handle.assignNull, unique_handle.reset]

/-- C10 (witness): assigning null to a handle wrapper holding 5 (null
sentinel 0) releases 5 with the slot already nulled. -/
theorem C10_assign_nullptr_witness :
    unique_handle.assignNull 0 ⟨5⟩ = ⟨⟨0⟩, [⟨5, 0⟩]⟩ :=
  C10_assign_nullptr_resets.2.1 0 5 (by decide)

end UtilsMemory
